import Mathlib

set_option maxHeartbeats 1000000

/-- A JSON value as produced by json.loads / consumed by json.dumps.
Objects keep their key order (Python dicts preserve insertion order). -/
inductive JVal where
  | jnull
  | jbool (b : Bool)
  | jnum (n : Int)
  | jstr (s : String)
  | jarr (elems : List JVal)
  | jobj (fields : List (String × JVal))

/-- Lookup of a key in a JSON object's field list (first match wins). -/
def lookupKV : List (String × JVal) → String → Option JVal
  | [], _ => none
  | (k, v) :: rest, key => if key = k then some v else lookupKV rest key

/-- Python truthiness of a JSON value, as used by if self.stream_sid. -/
def JVal.truthy : JVal → Bool
  | .jnull => false
  | .jbool b => b
  | .jnum n => n != 0
  | .jstr s => s ≠ ""
  | .jarr elems => !elems.isEmpty
  | .jobj fields => !fields.isEmpty

/-- The Python exception classes relevant to these two modules.  All of them
are subclasses of Exception, so an except Exception clause catches each. -/
inductive PyErr where
  | keyError (k : String)
  | attributeError
  | typeError
  | valueError
  | webSocketDisconnect
  | runtimeError
  | otherError
deriving DecidableEq

/-- The base64 alphabet used by base64.b64encode / b64decode. -/
def b64Alphabet : List Char :=
  (List.range 26).map (fun i => Char.ofNat (65 + i)) ++
  (List.range 26).map (fun i => Char.ofNat (97 + i)) ++
  (List.range 10).map (fun i => Char.ofNat (48 + i)) ++ ['+', '/']

/-- The character encoding a 6-bit group. -/
def sextetChar (n : Nat) : Char := b64Alphabet.getD n 'A'

/-- Index of a character in a character table, or none if absent. -/
def lookupIdxFrom : List Char → Char → Nat → Option Nat
  | [], _, _ => none
  | c :: cs, ch, i => if ch = c then some i else lookupIdxFrom cs ch (i + 1)

/-- The 6-bit value of a base64 alphabet character. -/
def sextetVal (c : Char) : Option Nat := lookupIdxFrom b64Alphabet c 0

/-- Standard base64 encoding of a byte list (bytes as naturals below 256),
as performed by base64.b64encode: three bytes become four characters, a
trailing group of one or two bytes is padded with = characters. -/
def b64encode : List Nat → List Char
  | [] => []
  | [a] => [sextetChar (a / 4), sextetChar (a % 4 * 16), '=', '=']
  | [a, b] => [sextetChar (a / 4), sextetChar (a % 4 * 16 + b / 16),
               sextetChar (b % 16 * 4), '=']
  | a :: b :: c :: rest =>
      sextetChar (a / 4) :: sextetChar (a % 4 * 16 + b / 16) ::
      sextetChar (b % 16 * 4 + c / 64) :: sextetChar (c % 64) :: b64encode rest

/-- Base64 decoding of a character list, as performed by base64.b64decode on
the strings produced by the encoder: four-character blocks, with = padding
allowed only in the final block.  (Python's decoder additionally discards
characters outside the alphabet before forming blocks; the theorems below
apply the decoder only to encoder outputs, where the two agree.) -/
def b64decode : List Char → Option (List Nat)
  | [] => some []
  | c1 :: c2 :: c3 :: c4 :: rest =>
    if rest = [] ∧ c3 = '=' ∧ c4 = '=' then
      match sextetVal c1, sextetVal c2 with
      | some a, some b => some [a * 4 + b / 16]
      | _, _ => none
    else if rest = [] ∧ c4 = '=' then
      match sextetVal c1, sextetVal c2, sextetVal c3 with
      | some a, some b, some c => some [a * 4 + b / 16, b % 16 * 16 + c / 4]
      | _, _, _ => none
    else
      match sextetVal c1, sextetVal c2, sextetVal c3, sextetVal c4 with
      | some a, some b, some c, some d =>
        match b64decode rest with
        | some bs => some ((a * 4 + b / 16) :: (b % 16 * 16 + c / 4) ::
                           (c % 4 * 64 + d) :: bs)
        | none => none
      | _, _, _, _ => none
  | _ => none

theorem sextetVal_sextetChar_fin : ∀ n : Fin 64, sextetVal (sextetChar n.val) = some n.val := by
  decide

theorem sextetVal_sextetChar (n : Nat) (h : n < 64) : sextetVal (sextetChar n) = some n :=
  sextetVal_sextetChar_fin ⟨n, h⟩

theorem sextetChar_ne_pad_fin : ∀ n : Fin 64, sextetChar n.val ≠ '=' := by
  decide

theorem sextetChar_ne_pad (n : Nat) (h : n < 64) : sextetChar n ≠ '=' :=
  sextetChar_ne_pad_fin ⟨n, h⟩

/-- Round trip of the base64 codec on byte lists. -/
theorem b64_roundtrip : ∀ bs : List Nat, (∀ x ∈ bs, x < 256) →
    b64decode (b64encode bs) = some bs
  | [], _ => rfl
  | [a], h => by
    have ha : a < 256 := h a (by simp)
    simp only [b64encode, b64decode]
    rw [if_pos (by simp)]
    rw [sextetVal_sextetChar _ (by omega), sextetVal_sextetChar _ (by omega)]
    simp
    omega
  | [a, b], h => by
    have ha : a < 256 := h a (by simp)
    have hb : b < 256 := h b (by simp)
    simp only [b64encode, b64decode]
    rw [if_neg (by
      intro hcon
      exact sextetChar_ne_pad (b % 16 * 4) (by omega) hcon.2.1)]
    rw [if_pos (by simp)]
    rw [sextetVal_sextetChar _ (by omega), sextetVal_sextetChar _ (by omega),
        sextetVal_sextetChar _ (by omega)]
    simp
    constructor
    all_goals omega
  | a :: b :: c :: rest, h => by
    have ha : a < 256 := h a (by simp)
    have hb : b < 256 := h b (by simp)
    have hc : c < 256 := h c (by simp)
    have IH := b64_roundtrip rest (fun x hx => h x (by simp [hx]))
    simp only [b64encode, b64decode]
    rw [if_neg (by
      intro hcon
      exact sextetChar_ne_pad (b % 16 * 4 + c / 64) (by omega) hcon.2.1)]
    rw [if_neg (by
      intro hcon
      exact sextetChar_ne_pad (c % 64) (by omega) hcon.2)]
    rw [sextetVal_sextetChar _ (by omega), sextetVal_sextetChar _ (by omega),
        sextetVal_sextetChar _ (by omega), sextetVal_sextetChar _ (by omega)]
    rw [IH]
    simp
    refine ⟨by omega, by omega, by omega⟩

/-- Hexadecimal digit characters as printed by json.dumps unicode escapes. -/
def hexDigitChar (n : Nat) : Char :=
  ((List.range 10).map (fun i => Char.ofNat (48 + i)) ++
   (List.range 6).map (fun i => Char.ofNat (97 + i))).getD n (Char.ofNat 48)

/-- A backslash-u escape of a 16-bit code unit. -/
def uEscape (n : Nat) : List Char :=
  ['\\', 'u', hexDigitChar (n / 4096 % 16), hexDigitChar (n / 256 % 16),
   hexDigitChar (n / 16 % 16), hexDigitChar (n % 16)]

/-- Escaping of one character inside a JSON string literal, following
json.dumps with its default ensure_ascii behavior. -/
def jsonEscapeChar (c : Char) : List Char :=
  if c = '"' then ['\\', '"']
  else if c = '\\' then ['\\', '\\']
  else if c.toNat = 10 then ['\\', 'n']
  else if c.toNat = 9 then ['\\', 't']
  else if c.toNat = 13 then ['\\', 'r']
  else if c.toNat = 8 then ['\\', 'b']
  else if c.toNat = 12 then ['\\', 'f']
  else if c.toNat < 32 ∨ c.toNat ≥ 127 then
    if c.toNat < 65536 then uEscape c.toNat
    else uEscape (55296 + (c.toNat - 65536) / 1024) ++
         uEscape (56320 + (c.toNat - 65536) % 1024)
  else [c]

/-- A JSON string literal with surrounding quotes, as printed by json.dumps. -/
def jsonQuote (s : String) : String :=
  "\"" ++ String.mk (s.data.map jsonEscapeChar).flatten ++ "\""

mutual

/-- Serialization of a JSON value exactly as json.dumps with default options
prints it: item separator is a comma and a space, key separator a colon and
a space. -/
def jsonDumps : JVal → String
  | JVal.jnull => "null"
  | JVal.jbool true => "true"
  | JVal.jbool false => "false"
  | JVal.jnum n => toString n
  | JVal.jstr s => jsonQuote s
  | JVal.jarr elems => "[" ++ jsonDumpsArr elems ++ "]"
  | JVal.jobj fields => "\x7b" ++ jsonDumpsObj fields ++ "\x7d"

/-- Serialization of the elements of a JSON array, comma-space separated. -/
def jsonDumpsArr : List JVal → String
  | [] => ""
  | [v] => jsonDumps v
  | v :: w :: rest => jsonDumps v ++ ", " ++ jsonDumpsArr (w :: rest)

/-- Serialization of the fields of a JSON object, comma-space separated. -/
def jsonDumpsObj : List (String × JVal) → String
  | [] => ""
  | [(k, v)] => jsonQuote k ++ ": " ++ jsonDumps v
  | (k, v) :: p :: rest => jsonQuote k ++ ": " ++ jsonDumps v ++ ", " ++ jsonDumpsObj (p :: rest)

end

/-- Starlette's WebSocketState enumeration. -/
inductive WSState where
  | connecting
  | connected
  | disconnected
deriving DecidableEq

/-- One interaction of the bridge with the websocket transport: the
application_state the bridge observes at that moment, and whether a
send_text performed at that moment would raise (and with which error).
A list of these plays the role of the transport environment; each
check-then-send in the code consumes the next entry. -/
structure SockStep where
  appState : WSState
  sendRaises : Option PyErr
deriving DecidableEq

/-- Default transport behavior when the environment script is exhausted:
connected and sends succeed. -/
def defaultSockStep : SockStep := { appState := WSState.connected, sendRaises := none }

/-- An observable transport action of one outbound-send call: either a
send_text that returned normally, a send_text that raised, or a skipped
write (state check failed, send_text not called).  Each records the
application_state observed immediately before. -/
inductive TxEvent where
  | sent (observed : WSState) (frame : String)
  | sendFailed (observed : WSState) (frame : String) (e : PyErr)
  | skipped (observed : WSState)
deriving DecidableEq

/-- One log entry per print statement in the two source files, carrying the
dynamic data the print interpolates (traceback.print_exc output is folded
into the corresponding failure entry). -/
inductive Log where
  | sentAudio (byteCount : Nat)
  | audioNotConnected (st : WSState)
  | audioDisconnected
  | audioRuntimeError
  | audioUnexpectedError (e : PyErr)
  | audioAttemptingRetry
  | audioRetrySent (byteCount : Nat)
  | audioRetryNotConnected (st : WSState)
  | audioRetryFailed (e : PyErr)
  | audioNoStreamSid
  | sentClear
  | clearNotConnected (st : WSState)
  | clearDisconnected
  | clearRuntimeError
  | clearUnexpectedError (e : PyErr)
  | clearAttemptingRetry
  | clearRetrySent
  | clearRetryNotConnected (st : WSState)
  | clearRetryFailed (e : PyErr)
  | clearNoStreamSid
  | handlingEvent (et : Option JVal)
  | streamStarted (sid : JVal)
  | receivedAudio (byteCount : Nat)
  | mediaNoCallback
  | unhandledEvent (et : Option JVal)
  | missingKey (k : String)
  | availableKeys (keys : List String)
  | fullMessageData (data : JVal)
  | handleUnexpectedError (e : PyErr)
  | handleMessageData (data : JVal)
  | handleAttemptingRetry
  | handleRetryStarted (sid : JVal)
  | handleRetryReceivedAudio (byteCount : Nat)
  | handleRetryHandled (et : Option JVal)
  | handleRetryFailed (e : PyErr)
  | orchHandleError (e : PyErr)
  | orchMessageContent
  | orchAttemptingRetry
  | orchRetryOk
  | orchRetryFailed (e : PyErr)

/-- The mutable state of one TwilioAudioInterface instance.  stream_sid is
the cached stream identifier (jnull models Python None, and a start event
stores whatever JSON value the frame carried); input_callback records
whether a consumer callback is installed; received lists the byte chunks
delivered to that callback, in delivery order. -/
structure BridgeState where
  stream_sid : JVal
  input_callback : Bool
  received : List (List Nat)

/-- Python dict .get with a string key: returns an optional value on a JSON
object, raises AttributeError on any other value. -/
def dictGet (d : JVal) (k : String) : Except PyErr (Option JVal) :=
  match d with
  | JVal.jobj fields => Except.ok (lookupKV fields k)
  | _ => Except.error PyErr.attributeError

/-- Python subscript with a string key: returns the value on a JSON object
holding the key, raises KeyError if the key is absent, TypeError when the
subscripted value is not a dict. -/
def indexKey (d : JVal) (k : String) : Except PyErr JVal :=
  match d with
  | JVal.jobj fields =>
    match lookupKV fields k with
    | some v => Except.ok v
    | none => Except.error (PyErr.keyError k)
  | _ => Except.error PyErr.typeError

/-- Python equality test of an event value against a string literal. -/
def etIs (et : Option JVal) (name : String) : Bool :=
  match et with
  | some (JVal.jstr t) => t = name
  | _ => false

/-- Python base64.b64decode applied to a JSON value: decodes a string,
raises a binascii error (a ValueError) on invalid base64 text and a
TypeError on non-string input. -/
def pyB64decode (v : JVal) : Except PyErr (List Nat) :=
  match v with
  | JVal.jstr s =>
    match b64decode s.data with
    | some bs => Except.ok bs
    | none => Except.error PyErr.valueError
  | _ => Except.error PyErr.typeError

/-- The base64 text payload computed for an outbound audio chunk, as in
base64.b64encode(audio).decode("utf-8"). -/
def audioPayload (audio : List Nat) : String := String.mk (b64encode audio)

/-- The audio_delta dict built by send_audio_to_twilio. -/
def mediaDelta (sid : JVal) (audio : List Nat) : JVal :=
  JVal.jobj [("event", JVal.jstr "media"), ("streamSid", sid),
             ("media", JVal.jobj [("payload", JVal.jstr (audioPayload audio))])]

/-- The clear_message dict built by send_clear_message_to_twilio. -/
def clearMessage (sid : JVal) : JVal :=
  JVal.jobj [("event", JVal.jstr "clear"), ("streamSid", sid)]

namespace TwilioAudioInterface

/-- The start method: installs the inbound-audio callback. -/
def start (s : BridgeState) : BridgeState := { s with input_callback := true }

/-- The stop method: clears the installed callback and the cached stream
identifier. -/
def stop (s : BridgeState) : BridgeState :=
  { s with input_callback := false, stream_sid := JVal.jnull }

/-- One check-then-send unit as it appears four times in the source: read
application_state; only if it is connected, call send_text, which either
returns or raises per the transport script; otherwise skip the write.  The
returned action records the observed state. -/
def checkThenSend (step : SockStep) (frame : String) : TxEvent :=
  if step.appState = WSState.connected then
    match step.sendRaises with
    | none => TxEvent.sent step.appState frame
    | some e => TxEvent.sendFailed step.appState frame e
  else TxEvent.skipped step.appState

/-- The coroutine send_audio_to_twilio.  Returns the transport actions it
performed and the log entries it printed; sock scripts the transport
(entry 0 for the first check-then-send, entry 1 for the retry).  The
branch structure mirrors the source: no send when stream_sid is falsy or
the observed state is not connected; a WebSocketDisconnect or RuntimeError
from send_text is logged without retry; any other exception triggers one
retry guarded by a fresh state check, whose own failure is logged and
swallowed. -/
def send_audio_to_twilio (s : BridgeState) (audio : List Nat) (sock : List SockStep) :
    List TxEvent × List Log :=
  if s.stream_sid.truthy then
    match checkThenSend (sock.getD 0 defaultSockStep)
        (jsonDumps (mediaDelta s.stream_sid audio)) with
    | TxEvent.sent st f => ([TxEvent.sent st f], [Log.sentAudio audio.length])
    | TxEvent.skipped st => ([TxEvent.skipped st], [Log.audioNotConnected st])
    | TxEvent.sendFailed st f PyErr.webSocketDisconnect =>
      ([TxEvent.sendFailed st f PyErr.webSocketDisconnect], [Log.audioDisconnected])
    | TxEvent.sendFailed st f PyErr.runtimeError =>
      ([TxEvent.sendFailed st f PyErr.runtimeError], [Log.audioRuntimeError])
    | TxEvent.sendFailed st f e =>
      match checkThenSend (sock.getD 1 defaultSockStep)
          (jsonDumps (mediaDelta s.stream_sid audio)) with
      | TxEvent.sent st2 f2 =>
        ([TxEvent.sendFailed st f e, TxEvent.sent st2 f2],
         [Log.audioUnexpectedError e, Log.audioAttemptingRetry,
          Log.audioRetrySent audio.length])
      | TxEvent.skipped st2 =>
        ([TxEvent.sendFailed st f e, TxEvent.skipped st2],
         [Log.audioUnexpectedError e, Log.audioAttemptingRetry,
          Log.audioRetryNotConnected st2])
      | TxEvent.sendFailed st2 f2 e2 =>
        ([TxEvent.sendFailed st f e, TxEvent.sendFailed st2 f2 e2],
         [Log.audioUnexpectedError e, Log.audioAttemptingRetry,
          Log.audioRetryFailed e2])
  else ([], [Log.audioNoStreamSid])

/-- The coroutine send_clear_message_to_twilio, with the same structure as
the audio sender but emitting the clear frame. -/
def send_clear_message_to_twilio (s : BridgeState) (sock : List SockStep) :
    List TxEvent × List Log :=
  if s.stream_sid.truthy then
    match checkThenSend (sock.getD 0 defaultSockStep)
        (jsonDumps (clearMessage s.stream_sid)) with
    | TxEvent.sent st f => ([TxEvent.sent st f], [Log.sentClear])
    | TxEvent.skipped st => ([TxEvent.skipped st], [Log.clearNotConnected st])
    | TxEvent.sendFailed st f PyErr.webSocketDisconnect =>
      ([TxEvent.sendFailed st f PyErr.webSocketDisconnect], [Log.clearDisconnected])
    | TxEvent.sendFailed st f PyErr.runtimeError =>
      ([TxEvent.sendFailed st f PyErr.runtimeError], [Log.clearRuntimeError])
    | TxEvent.sendFailed st f e =>
      match checkThenSend (sock.getD 1 defaultSockStep)
          (jsonDumps (clearMessage s.stream_sid)) with
      | TxEvent.sent st2 f2 =>
        ([TxEvent.sendFailed st f e, TxEvent.sent st2 f2],
         [Log.clearUnexpectedError e, Log.clearAttemptingRetry, Log.clearRetrySent])
      | TxEvent.skipped st2 =>
        ([TxEvent.sendFailed st f e, TxEvent.skipped st2],
         [Log.clearUnexpectedError e, Log.clearAttemptingRetry,
          Log.clearRetryNotConnected st2])
      | TxEvent.sendFailed st2 f2 e2 =>
        ([TxEvent.sendFailed st f e, TxEvent.sendFailed st2 f2 e2],
         [Log.clearUnexpectedError e, Log.clearAttemptingRetry,
          Log.clearRetryFailed e2])
  else ([], [Log.clearNoStreamSid])

/-- The output method schedules send_audio_to_twilio on the owning event
loop via run_coroutine_threadsafe; modelled as the effect of that coroutine
once the loop runs it. -/
def output (s : BridgeState) (audio : List Nat) (sock : List SockStep) :
    List TxEvent × List Log :=
  send_audio_to_twilio s audio sock

/-- The interrupt method schedules send_clear_message_to_twilio on the
owning event loop; modelled as the effect of that coroutine once the loop
runs it. -/
def interrupt (s : BridgeState) (sock : List SockStep) : List TxEvent × List Log :=
  send_clear_message_to_twilio s sock

/-- The try-block body of handle_twilio_message: dispatch on the event
field, set stream_sid on start, decode and deliver audio on media when a
callback is installed.  Returns the raised error or the updated state,
together with the log entries printed before any raise. -/
def handleBody (s : BridgeState) (data : JVal) : Except PyErr BridgeState × List Log :=
  match dictGet data "event" with
  | Except.error e => (Except.error e, [])
  | Except.ok et =>
    let l0 : List Log := [Log.handlingEvent et]
    if etIs et "start" then
      match indexKey data "start" with
      | Except.error e => (Except.error e, l0)
      | Except.ok st =>
        match indexKey st "streamSid" with
        | Except.error e => (Except.error e, l0)
        | Except.ok sid =>
          (Except.ok { s with stream_sid := sid }, l0 ++ [Log.streamStarted sid])
    else if etIs et "media" && s.input_callback then
      match indexKey data "media" with
      | Except.error e => (Except.error e, l0)
      | Except.ok m =>
        match indexKey m "payload" with
        | Except.error e => (Except.error e, l0)
        | Except.ok p =>
          match pyB64decode p with
          | Except.error e => (Except.error e, l0)
          | Except.ok audio =>
            (Except.ok { s with received := s.received ++ [audio] },
             l0 ++ [Log.receivedAudio audio.length])
    else if etIs et "media" then
      (Except.ok s, l0 ++ [Log.mediaNoCallback])
    else
      (Except.ok s, l0 ++ [Log.unhandledEvent et])

/-- The inner retry block of handle_twilio_message (the try inside the
except Exception clause): re-dispatch on the event field; its else branch
covers everything that is not a start or a deliverable media event. -/
def retryBody (s : BridgeState) (data : JVal) : Except PyErr BridgeState × List Log :=
  match dictGet data "event" with
  | Except.error e => (Except.error e, [])
  | Except.ok et =>
    if etIs et "start" then
      match indexKey data "start" with
      | Except.error e => (Except.error e, [])
      | Except.ok st =>
        match indexKey st "streamSid" with
        | Except.error e => (Except.error e, [])
        | Except.ok sid =>
          (Except.ok { s with stream_sid := sid }, [Log.handleRetryStarted sid])
    else if etIs et "media" && s.input_callback then
      match indexKey data "media" with
      | Except.error e => (Except.error e, [])
      | Except.ok m =>
        match indexKey m "payload" with
        | Except.error e => (Except.error e, [])
        | Except.ok p =>
          match pyB64decode p with
          | Except.error e => (Except.error e, [])
          | Except.ok audio =>
            (Except.ok { s with received := s.received ++ [audio] },
             [Log.handleRetryReceivedAudio audio.length])
    else (Except.ok s, [Log.handleRetryHandled et])

/-- Keys of a JSON object, as printed by list(data.keys()). -/
def keysOf : JVal → List String
  | JVal.jobj fields => fields.map Prod.fst
  | _ => []

/-- The method handle_twilio_message: the body wrapped in its two except
clauses.  A KeyError is logged with the offending frame and swallowed; any
other exception is logged and answered by one retry of the body, whose own
failure is logged and swallowed.  The result is ok in every branch because
the handlers cover every Exception subclass; the Except codomain records
that no exception escapes to the caller. -/
def handle_twilio_message (s : BridgeState) (data : JVal) :
    Except PyErr (BridgeState × List Log) :=
  match handleBody s data with
  | (Except.ok s2, logs) => Except.ok (s2, logs)
  | (Except.error (PyErr.keyError k), logs) =>
    Except.ok (s, logs ++ [Log.missingKey k, Log.availableKeys (TwilioAudioInterface.keysOf data),
                           Log.fullMessageData data])
  | (Except.error e, logs) =>
    let l2 := logs ++ [Log.handleUnexpectedError e, Log.handleMessageData data,
                       Log.handleAttemptingRetry]
    match retryBody s data with
    | (Except.ok s2, rlogs) => Except.ok (s2, l2 ++ rlogs)
    | (Except.error e2, rlogs) => Except.ok (s, l2 ++ rlogs ++ [Log.handleRetryFailed e2])

end TwilioAudioInterface

/-- One raw text frame of the duplex socket as the read loop sees it:
empty text (skipped by the loop before parsing), text that json.loads
rejects, or text that parses to a JSON value.  json.loads is deterministic,
so a raw frame is represented by its parse status. -/
inductive RawMsg where
  | empty
  | malformed
  | wellFormed (j : JVal)

/-- One attempt of the loop body: json.loads followed by
handle_twilio_message; the attempt raises exactly when parsing does. -/
def attemptFrame (s : BridgeState) (m : RawMsg) : Except PyErr (BridgeState × List Log) :=
  match m with
  | RawMsg.empty => Except.error PyErr.valueError
  | RawMsg.malformed => Except.error PyErr.valueError
  | RawMsg.wellFormed j => TwilioAudioInterface.handle_twilio_message s j

/-- The per-frame part of handle_media_stream's read loop: one attempt,
and on an exception one logged retry of the same frame whose own failure
is logged and swallowed.  The third component counts the attempts made. -/
def processFrame (s : BridgeState) (m : RawMsg) : BridgeState × List Log × Nat :=
  match attemptFrame s m with
  | Except.ok (s2, logs) => (s2, logs, 1)
  | Except.error e =>
    let l1 : List Log := [Log.orchHandleError e, Log.orchMessageContent,
                          Log.orchAttemptingRetry]
    match attemptFrame s m with
    | Except.ok (s2, logs2) => (s2, l1 ++ logs2 ++ [Log.orchRetryOk], 2)
    | Except.error e2 => (s, l1 ++ [Log.orchRetryFailed e2], 2)

/-- The read loop of handle_media_stream over a finite inbound frame
sequence: empty frames are skipped, every other frame is processed by
processFrame and the loop always continues with the remaining frames. -/
def handle_media_stream_loop (s : BridgeState) : List RawMsg → BridgeState × List Log
  | [] => (s, [])
  | RawMsg.empty :: rest => handle_media_stream_loop s rest
  | m :: rest =>
    let r := processFrame s m
    let r2 := handle_media_stream_loop r.1 rest
    (r2.1, r.2.1 ++ r2.2)

/-- The request body of a tool call as the endpoint sees it: either text
that request.json() rejects, or a parsed JSON value. -/
inductive RequestBody where
  | invalidJson (msg : String)
  | valid (j : JVal)

/-- Modelled from the spec: the outcome of handle_function_call from the
function_handlers module, which is not part of this code snapshot.  Per the
spec's interface contract the handler either returns a JSON result, reports
an error message, or fails; the endpoint only discriminates these three
outcomes. -/
inductive HandlerOutcome where
  | ok (result : JVal)
  | err (msg : String)
  | raises (e : PyErr)

/-- A success-false error response body as built by the endpoint. -/
def errorResponse (msg : String) : JVal :=
  JVal.jobj [("success", JVal.jbool false), ("error", JVal.jstr msg)]

/-- The POST tools endpoint handler handle_tool_call: parse the body,
iterate its items (raising on a non-dict body), dispatch to the handler,
and turn every JSONDecodeError, handler error or unexpected exception into
a success-false JSON response rather than re-raising. -/
def handle_tool_call (toolName : String) (body : RequestBody)
    (handler : HandlerOutcome) : JVal :=
  match body with
  | RequestBody.invalidJson m =>
    errorResponse ("Invalid JSON in request body: " ++ m)
  | RequestBody.valid j =>
    match j with
    | JVal.jobj _ =>
      match handler with
      | HandlerOutcome.ok r => r
      | HandlerOutcome.err m => errorResponse m
      | HandlerOutcome.raises _ =>
        errorResponse ("Unexpected error in tool endpoint: " ++ toolName)
    | _ => errorResponse ("Unexpected error in tool endpoint: " ++ toolName)

/-- The wire frame of a start event carrying a stream identifier. -/
def startEvt (sid : String) : JVal :=
  JVal.jobj [("event", JVal.jstr "start"),
             ("start", JVal.jobj [("streamSid", JVal.jstr sid)])]

/-- The wire frame of a media event carrying a base64 payload. -/
def mediaEvt (payload : String) : JVal :=
  JVal.jobj [("event", JVal.jstr "media"),
             ("media", JVal.jobj [("payload", JVal.jstr payload)])]

/-- The bridge state as constructed for a freshly accepted socket: no
stream identifier, no callback, nothing delivered. -/
def initState : BridgeState := ⟨JVal.jnull, false, []⟩

/-- The state after handle_twilio_message; the error fallback is dead code
because the handler never propagates an exception. -/
def runHandle (s : BridgeState) (data : JVal) : BridgeState :=
  match TwilioAudioInterface.handle_twilio_message s data with
  | Except.ok (s2, _) => s2
  | Except.error _ => s

/-- The event field of an inbound frame, for stating which frames are
start events. -/
def eventTypeOf (data : JVal) : Option JVal :=
  match data with
  | JVal.jobj fields => lookupKV fields "event"
  | _ => none

/-- A transport action only writes when the connection state observed
immediately before it was connected. -/
def writeObservedOpen : TxEvent → Prop
  | TxEvent.sent st _ => st = WSState.connected
  | TxEvent.sendFailed st _ _ => st = WSState.connected
  | TxEvent.skipped _ => True

/-- The bridge state after processing a start event with identifier S1
from the fresh state. -/
def stateAfterStartS1 : BridgeState := runHandle initState (startEvt "S1")

/-- C4: while the stream identifier is unset, output and interrupt perform
zero socket writes, print exactly one log entry each, and complete as
defined no-ops, whatever the transport would have done. -/
theorem C4_unset_sid_noop (cb : Bool) (rcv : List (List Nat)) (audio : List Nat)
    (sock : List SockStep) :
    TwilioAudioInterface.output ⟨JVal.jnull, cb, rcv⟩ audio sock =
      ([], [Log.audioNoStreamSid]) ∧
    TwilioAudioInterface.interrupt ⟨JVal.jnull, cb, rcv⟩ sock =
      ([], [Log.clearNoStreamSid]) :=
  ⟨rfl, rfl⟩

/-- C7: interrupt before any start event writes no frame and prints one
warning; after the start event with identifier S1, on an open socket, it
writes exactly one frame whose JSON text is the clear frame for S1. -/
theorem C7_interrupt_scenarios :
    TwilioAudioInterface.interrupt initState [] = ([], [Log.clearNoStreamSid]) ∧
    stateAfterStartS1.stream_sid = JVal.jstr "S1" ∧
    TwilioAudioInterface.interrupt stateAfterStartS1 [⟨WSState.connected, none⟩] =
      ([TxEvent.sent WSState.connected
          "\x7b\"event\": \"clear\", \"streamSid\": \"S1\"\x7d"],
       [Log.sentClear]) :=
  ⟨rfl, rfl, rfl⟩

/-- C2 counterexample: a second start event does change the stream
identifier again; after processing start events with identifiers S1 and
then S2, the cached identifier is S2, not the identifier S1 set by the
first start event. -/
theorem C2_counterexample :
    (runHandle initState (startEvt "S1")).stream_sid = JVal.jstr "S1" ∧
    (runHandle (runHandle initState (startEvt "S1")) (startEvt "S2")).stream_sid =
      JVal.jstr "S2" ∧
    JVal.jstr "S2" ≠ JVal.jstr "S1" := by
  refine ⟨rfl, rfl, ?_⟩
  intro h
  injection h with h2
  exact absurd h2 (by decide)

/-- C1 counterexample: a first write failure with RuntimeError is not a
clean disconnect, yet the bridge performs no retry: both senders make
exactly one transport attempt and drop the frame. -/
theorem C1_counterexample :
    PyErr.runtimeError ≠ PyErr.webSocketDisconnect ∧
    (TwilioAudioInterface.send_audio_to_twilio ⟨JVal.jstr "S1", true, []⟩ [65]
        [⟨WSState.connected, some PyErr.runtimeError⟩]).1.length = 1 ∧
    (TwilioAudioInterface.send_clear_message_to_twilio ⟨JVal.jstr "S1", true, []⟩
        [⟨WSState.connected, some PyErr.runtimeError⟩]).1.length = 1 := by
  refine ⟨by decide, rfl, rfl⟩

/-- C1 (amended): for an outbound frame whose first send raises any error
other than a clean websocket disconnect or a runtime error, the bridge
makes exactly one immediate retry of the identical frame and, when the
retry also raises, logs exactly one dropped-frame entry and makes no
further attempts; a disconnect or runtime error on the first send is
logged and the frame dropped without any retry.  This holds for both the
audio media frame path and the clear frame path. -/
theorem C1_retry_policy (s : BridgeState) (audio : List Nat) (e e2 : PyErr)
    (tail : List SockStep) (hsid : s.stream_sid.truthy = true)
    (hd : e ≠ PyErr.webSocketDisconnect) (hr : e ≠ PyErr.runtimeError) :
    (TwilioAudioInterface.send_audio_to_twilio s audio
        (⟨WSState.connected, some e⟩ :: ⟨WSState.connected, some e2⟩ :: tail) =
      ([TxEvent.sendFailed WSState.connected (jsonDumps (mediaDelta s.stream_sid audio)) e,
        TxEvent.sendFailed WSState.connected (jsonDumps (mediaDelta s.stream_sid audio)) e2],
       [Log.audioUnexpectedError e, Log.audioAttemptingRetry, Log.audioRetryFailed e2])) ∧
    (TwilioAudioInterface.send_audio_to_twilio s audio
        (⟨WSState.connected, some e⟩ :: ⟨WSState.connected, none⟩ :: tail) =
      ([TxEvent.sendFailed WSState.connected (jsonDumps (mediaDelta s.stream_sid audio)) e,
        TxEvent.sent WSState.connected (jsonDumps (mediaDelta s.stream_sid audio))],
       [Log.audioUnexpectedError e, Log.audioAttemptingRetry,
        Log.audioRetrySent audio.length])) ∧
    (TwilioAudioInterface.send_audio_to_twilio s audio
        (⟨WSState.connected, some PyErr.webSocketDisconnect⟩ :: tail) =
      ([TxEvent.sendFailed WSState.connected (jsonDumps (mediaDelta s.stream_sid audio))
          PyErr.webSocketDisconnect],
       [Log.audioDisconnected])) ∧
    (TwilioAudioInterface.send_audio_to_twilio s audio
        (⟨WSState.connected, some PyErr.runtimeError⟩ :: tail) =
      ([TxEvent.sendFailed WSState.connected (jsonDumps (mediaDelta s.stream_sid audio))
          PyErr.runtimeError],
       [Log.audioRuntimeError])) ∧
    (TwilioAudioInterface.send_clear_message_to_twilio s
        (⟨WSState.connected, some e⟩ :: ⟨WSState.connected, some e2⟩ :: tail) =
      ([TxEvent.sendFailed WSState.connected (jsonDumps (clearMessage s.stream_sid)) e,
        TxEvent.sendFailed WSState.connected (jsonDumps (clearMessage s.stream_sid)) e2],
       [Log.clearUnexpectedError e, Log.clearAttemptingRetry, Log.clearRetryFailed e2])) ∧
    (TwilioAudioInterface.send_clear_message_to_twilio s
        (⟨WSState.connected, some e⟩ :: ⟨WSState.connected, none⟩ :: tail) =
      ([TxEvent.sendFailed WSState.connected (jsonDumps (clearMessage s.stream_sid)) e,
        TxEvent.sent WSState.connected (jsonDumps (clearMessage s.stream_sid))],
       [Log.clearUnexpectedError e, Log.clearAttemptingRetry, Log.clearRetrySent])) ∧
    (TwilioAudioInterface.send_clear_message_to_twilio s
        (⟨WSState.connected, some PyErr.webSocketDisconnect⟩ :: tail) =
      ([TxEvent.sendFailed WSState.connected (jsonDumps (clearMessage s.stream_sid))
          PyErr.webSocketDisconnect],
       [Log.clearDisconnected])) ∧
    (TwilioAudioInterface.send_clear_message_to_twilio s
        (⟨WSState.connected, some PyErr.runtimeError⟩ :: tail) =
      ([TxEvent.sendFailed WSState.connected (jsonDumps (clearMessage s.stream_sid))
          PyErr.runtimeError],
       [Log.clearRuntimeError])) := by
  cases e <;>
    simp_all [TwilioAudioInterface.send_audio_to_twilio,
      TwilioAudioInterface.send_clear_message_to_twilio,
      TwilioAudioInterface.checkThenSend, List.getD]

/-- C1 witness: a concrete double failure on the audio path makes exactly
two transport attempts. -/
theorem C1_retry_policy_witness :
    (TwilioAudioInterface.send_audio_to_twilio ⟨JVal.jstr "S1", true, []⟩ [65]
        [⟨WSState.connected, some PyErr.otherError⟩,
         ⟨WSState.connected, some PyErr.typeError⟩]).1.length = 2 := by
  have h := (C1_retry_policy ⟨JVal.jstr "S1", true, []⟩ [65] PyErr.otherError
    PyErr.typeError [] rfl (by decide) (by decide)).1
  rw [h]
  rfl

/-- C3: for every byte sequence b, including the empty one, feeding the
inbound media path the payload text that the outbound audio path computes
for b delivers exactly b to the installed callback: the wire codec round
trips every byte sequence. -/
theorem C3_media_roundtrip (s : BridgeState) (b : List Nat)
    (hb : ∀ x ∈ b, x < 256) (hcb : s.input_callback = true) :
    TwilioAudioInterface.handle_twilio_message s (mediaEvt (audioPayload b)) =
      Except.ok ({ s with received := s.received ++ [b] },
        [Log.handlingEvent (some (JVal.jstr "media")), Log.receivedAudio b.length]) := by
  have hdec : pyB64decode (JVal.jstr (audioPayload b)) = Except.ok b := by
    have hrt : b64decode (String.mk (b64encode b)).data = some b := b64_roundtrip b hb
    simp [pyB64decode, audioPayload, hrt]
  unfold TwilioAudioInterface.handle_twilio_message TwilioAudioInterface.handleBody
  simp [mediaEvt, dictGet, lookupKV, etIs, indexKey, hcb, hdec]

/-- C3 witness: the round trip evaluated on the concrete byte sequence
0, 255, 7 with a fresh state holding an installed callback. -/
theorem C3_media_roundtrip_witness :
    TwilioAudioInterface.handle_twilio_message ⟨JVal.jnull, true, []⟩
        (mediaEvt (audioPayload [0, 255, 7])) =
      Except.ok (⟨JVal.jnull, true, [[0, 255, 7]]⟩,
        [Log.handlingEvent (some (JVal.jstr "media")), Log.receivedAudio 3]) := by
  have h := C3_media_roundtrip ⟨JVal.jnull, true, []⟩ [0, 255, 7] (by decide) rfl
  exact h

/-- Every transport action produced by a check-then-send unit observed the
connected state whenever it performed a send. -/
theorem checkThenSend_observedOpen (step : SockStep) (frame : String) :
    writeObservedOpen (TwilioAudioInterface.checkThenSend step frame) := by
  unfold TwilioAudioInterface.checkThenSend
  split
  · split <;> simp_all [writeObservedOpen]
  · simp [writeObservedOpen]

/-- A skipped action of a check-then-send unit carries the observed state,
which was not connected. -/
theorem checkThenSend_skipped (step : SockStep) (frame : String) (st : WSState)
    (h : TwilioAudioInterface.checkThenSend step frame = TxEvent.skipped st) :
    st = step.appState ∧ step.appState ≠ WSState.connected := by
  unfold TwilioAudioInterface.checkThenSend at h
  split at h
  · split at h <;> simp_all
  · simp_all

/-- C8: on both outbound paths, every transport action that calls
send_text (successfully or not) was immediately preceded by an observation
of the connected application state, and every action whose observation was
not connected performs no send and leaves a corresponding log entry. -/
theorem C8_transport_guard (s : BridgeState) (audio : List Nat) (sock : List SockStep) :
    (∀ ev ∈ (TwilioAudioInterface.send_audio_to_twilio s audio sock).1,
       writeObservedOpen ev) ∧
    (∀ st, TxEvent.skipped st ∈ (TwilioAudioInterface.send_audio_to_twilio s audio sock).1 →
       st ≠ WSState.connected ∧
       (Log.audioNotConnected st ∈ (TwilioAudioInterface.send_audio_to_twilio s audio sock).2 ∨
        Log.audioRetryNotConnected st ∈
          (TwilioAudioInterface.send_audio_to_twilio s audio sock).2)) ∧
    (∀ ev ∈ (TwilioAudioInterface.send_clear_message_to_twilio s sock).1,
       writeObservedOpen ev) ∧
    (∀ st, TxEvent.skipped st ∈ (TwilioAudioInterface.send_clear_message_to_twilio s sock).1 →
       st ≠ WSState.connected ∧
       (Log.clearNotConnected st ∈ (TwilioAudioInterface.send_clear_message_to_twilio s sock).2 ∨
        Log.clearRetryNotConnected st ∈
          (TwilioAudioInterface.send_clear_message_to_twilio s sock).2)) := by
  refine ⟨?_, ?_, ?_, ?_⟩
  · intro x hx
    unfold TwilioAudioInterface.send_audio_to_twilio at hx
    by_cases hsid : s.stream_sid.truthy = true
    case neg => rw [if_neg hsid] at hx; simp at hx
    rw [if_pos hsid] at hx
    rcases h0 : TwilioAudioInterface.checkThenSend (sock.getD 0 defaultSockStep)
        (jsonDumps (mediaDelta s.stream_sid audio)) with ⟨st1, f1⟩ | ⟨st1, f1, e⟩ | ⟨st1⟩ <;>
      rw [h0] at hx
    · simp at hx; subst hx; rw [← h0]; exact checkThenSend_observedOpen _ _
    · cases e <;>
        first
        | (simp at hx; subst hx; rw [← h0]; exact checkThenSend_observedOpen _ _)
        | (rcases h1 : TwilioAudioInterface.checkThenSend (sock.getD 1 defaultSockStep)
              (jsonDumps (mediaDelta s.stream_sid audio)) with ⟨st2, f2⟩ | ⟨st2, f2, e2⟩ | ⟨st2⟩ <;>
            rw [h1] at hx <;> simp at hx <;>
            rcases hx with hx | hx <;> subst hx <;>
            first
            | (rw [← h0]; exact checkThenSend_observedOpen _ _)
            | (rw [← h1]; exact checkThenSend_observedOpen _ _))
    · simp at hx; subst hx; simp [writeObservedOpen]
  · intro st hst
    unfold TwilioAudioInterface.send_audio_to_twilio at hst ⊢
    by_cases hsid : s.stream_sid.truthy = true
    case neg => rw [if_neg hsid] at hst; simp at hst
    rw [if_pos hsid] at hst ⊢
    rcases h0 : TwilioAudioInterface.checkThenSend (sock.getD 0 defaultSockStep)
        (jsonDumps (mediaDelta s.stream_sid audio)) with ⟨st1, f1⟩ | ⟨st1, f1, e⟩ | ⟨st1⟩ <;>
      rw [h0] at hst
    · simp at hst
    · cases e <;>
        first
        | (simp at hst; done)
        | (rcases h1 : TwilioAudioInterface.checkThenSend (sock.getD 1 defaultSockStep)
              (jsonDumps (mediaDelta s.stream_sid audio)) with ⟨st2, f2⟩ | ⟨st2, f2, e2⟩ | ⟨st2⟩ <;>
            rw [h1] at hst <;>
            first
            | (simp at hst; done)
            | (have hs := checkThenSend_skipped _ _ _ h1
               simp at hst
               simp_all))
    · have hs := checkThenSend_skipped _ _ _ h0
      simp at hst
      simp_all
  · intro x hx
    unfold TwilioAudioInterface.send_clear_message_to_twilio at hx
    by_cases hsid : s.stream_sid.truthy = true
    case neg => rw [if_neg hsid] at hx; simp at hx
    rw [if_pos hsid] at hx
    rcases h0 : TwilioAudioInterface.checkThenSend (sock.getD 0 defaultSockStep)
        (jsonDumps (clearMessage s.stream_sid)) with ⟨st1, f1⟩ | ⟨st1, f1, e⟩ | ⟨st1⟩ <;>
      rw [h0] at hx
    · simp at hx; subst hx; rw [← h0]; exact checkThenSend_observedOpen _ _
    · cases e <;>
        first
        | (simp at hx; subst hx; rw [← h0]; exact checkThenSend_observedOpen _ _)
        | (rcases h1 : TwilioAudioInterface.checkThenSend (sock.getD 1 defaultSockStep)
              (jsonDumps (clearMessage s.stream_sid)) with ⟨st2, f2⟩ | ⟨st2, f2, e2⟩ | ⟨st2⟩ <;>
            rw [h1] at hx <;> simp at hx <;>
            rcases hx with hx | hx <;> subst hx <;>
            first
            | (rw [← h0]; exact checkThenSend_observedOpen _ _)
            | (rw [← h1]; exact checkThenSend_observedOpen _ _))
    · simp at hx; subst hx; simp [writeObservedOpen]
  · intro st hst
    unfold TwilioAudioInterface.send_clear_message_to_twilio at hst ⊢
    by_cases hsid : s.stream_sid.truthy = true
    case neg => rw [if_neg hsid] at hst; simp at hst
    rw [if_pos hsid] at hst ⊢
    rcases h0 : TwilioAudioInterface.checkThenSend (sock.getD 0 defaultSockStep)
        (jsonDumps (clearMessage s.stream_sid)) with ⟨st1, f1⟩ | ⟨st1, f1, e⟩ | ⟨st1⟩ <;>
      rw [h0] at hst
    · simp at hst
    · cases e <;>
        first
        | (simp at hst; done)
        | (rcases h1 : TwilioAudioInterface.checkThenSend (sock.getD 1 defaultSockStep)
              (jsonDumps (clearMessage s.stream_sid)) with ⟨st2, f2⟩ | ⟨st2, f2, e2⟩ | ⟨st2⟩ <;>
            rw [h1] at hst <;>
            first
            | (simp at hst; done)
            | (have hs := checkThenSend_skipped _ _ _ h1
               simp at hst
               simp_all))
    · have hs := checkThenSend_skipped _ _ _ h0
      simp at hst
      simp_all

/-- C8 witness: with the socket observed disconnected, the audio sender
skips the write and logs the not-connected state. -/
theorem C8_transport_guard_witness :
    WSState.disconnected ≠ WSState.connected ∧
    (Log.audioNotConnected WSState.disconnected ∈
       (TwilioAudioInterface.send_audio_to_twilio ⟨JVal.jstr "S1", true, []⟩ [65]
         [⟨WSState.disconnected, none⟩]).2 ∨
     Log.audioRetryNotConnected WSState.disconnected ∈
       (TwilioAudioInterface.send_audio_to_twilio ⟨JVal.jstr "S1", true, []⟩ [65]
         [⟨WSState.disconnected, none⟩]).2) := by
  exact (C8_transport_guard ⟨JVal.jstr "S1", true, []⟩ [65]
    [⟨WSState.disconnected, none⟩]).2.1 WSState.disconnected (by
      show TxEvent.skipped WSState.disconnected ∈ [TxEvent.skipped WSState.disconnected]
      exact List.mem_singleton.mpr rfl)

/-- C5: a frame whose processing attempt raises is retried exactly once
through the identical path; since decoding is deterministic the retry
raises the same error, the failure is logged, the frame is skipped with
the state unchanged, and the read loop continues with the remaining
frames. -/
theorem C5_loop_retry (s : BridgeState) (m : RawMsg) (e : PyErr)
    (hm : m ≠ RawMsg.empty) (he : attemptFrame s m = Except.error e) :
    processFrame s m =
      (s, [Log.orchHandleError e, Log.orchMessageContent, Log.orchAttemptingRetry,
           Log.orchRetryFailed e], 2) ∧
    ∀ rest, handle_media_stream_loop s (m :: rest) =
      ((handle_media_stream_loop s rest).1,
       ([Log.orchHandleError e, Log.orchMessageContent, Log.orchAttemptingRetry,
         Log.orchRetryFailed e] : List Log) ++ (handle_media_stream_loop s rest).2) := by
  have hpf : processFrame s m =
      (s, [Log.orchHandleError e, Log.orchMessageContent, Log.orchAttemptingRetry,
           Log.orchRetryFailed e], 2) := by
    unfold processFrame
    rw [he]
    rfl
  refine ⟨hpf, ?_⟩
  intro rest
  cases m with
  | empty => exact absurd rfl hm
  | malformed => simp [handle_media_stream_loop, hpf]
  | wellFormed j => simp [handle_media_stream_loop, hpf]

/-- C5 witness: the retry policy evaluated on a frame that json.loads
rejects, from the fresh bridge state. -/
theorem C5_loop_retry_witness :
    processFrame initState RawMsg.malformed =
      (initState, [Log.orchHandleError PyErr.valueError, Log.orchMessageContent,
        Log.orchAttemptingRetry, Log.orchRetryFailed PyErr.valueError], 2) :=
  (C5_loop_retry initState RawMsg.malformed PyErr.valueError
    (fun h => RawMsg.noConfusion h) rfl).1

/-- C6: an inbound frame missing a required key is answered by the KeyError
handler: the failure is logged together with the offending frame data, the
state is unchanged (the frame alone is discarded), and the loop processes
all remaining frames exactly as if the malformed frame were absent. -/
theorem C6_malformed_frame (s : BridgeState) (data : JVal) (k : String) (logs : List Log)
    (h : TwilioAudioInterface.handleBody s data = (Except.error (PyErr.keyError k), logs)) :
    TwilioAudioInterface.handle_twilio_message s data =
      Except.ok (s, logs ++ [Log.missingKey k, Log.availableKeys (TwilioAudioInterface.keysOf data),
                             Log.fullMessageData data]) ∧
    ∀ rest, handle_media_stream_loop s (RawMsg.wellFormed data :: rest) =
      ((handle_media_stream_loop s rest).1,
       (logs ++ [Log.missingKey k, Log.availableKeys (TwilioAudioInterface.keysOf data),
                 Log.fullMessageData data]) ++ (handle_media_stream_loop s rest).2) := by
  have hh : TwilioAudioInterface.handle_twilio_message s data =
      Except.ok (s, logs ++ [Log.missingKey k, Log.availableKeys (TwilioAudioInterface.keysOf data),
                             Log.fullMessageData data]) := by
    unfold TwilioAudioInterface.handle_twilio_message
    rw [h]
  refine ⟨hh, ?_⟩
  intro rest
  have hpf : processFrame s (RawMsg.wellFormed data) =
      (s, logs ++ [Log.missingKey k, Log.availableKeys (TwilioAudioInterface.keysOf data),
                   Log.fullMessageData data], 1) := by
    have ha : attemptFrame s (RawMsg.wellFormed data) =
        TwilioAudioInterface.handle_twilio_message s data := rfl
    unfold processFrame
    rw [ha, hh]
  simp [handle_media_stream_loop, hpf]

/-- C6 witness: a media frame whose media object lacks the payload key is
logged and discarded without touching the state. -/
theorem C6_malformed_frame_witness :
    TwilioAudioInterface.handle_twilio_message ⟨JVal.jnull, true, []⟩
        (JVal.jobj [("event", JVal.jstr "media"), ("media", JVal.jobj [])]) =
      Except.ok (⟨JVal.jnull, true, []⟩,
        [Log.handlingEvent (some (JVal.jstr "media")), Log.missingKey "payload",
         Log.availableKeys ["event", "media"],
         Log.fullMessageData (JVal.jobj [("event", JVal.jstr "media"),
                                         ("media", JVal.jobj [])])]) :=
  (C6_malformed_frame ⟨JVal.jnull, true, []⟩
    (JVal.jobj [("event", JVal.jstr "media"), ("media", JVal.jobj [])]) "payload"
    [Log.handlingEvent (some (JVal.jstr "media"))] rfl).1

/-- A successful run of the handler body on a frame whose event field is
not the string start leaves the stream identifier unchanged. -/
theorem handleBody_not_start (s : BridgeState) (data : JVal)
    (h : etIs (eventTypeOf data) "start" = false) (s2 : BridgeState) (logs : List Log)
    (heq : TwilioAudioInterface.handleBody s data = (Except.ok s2, logs)) :
    s2.stream_sid = s.stream_sid := by
  unfold TwilioAudioInterface.handleBody at heq
  cases data with
  | jobj fields =>
    rw [show eventTypeOf (JVal.jobj fields) = lookupKV fields "event" from rfl] at h
    simp only [dictGet, h] at heq
    repeat' split at heq
    all_goals
      first
      | (simp_all; done)
      | (simp_all
         rw [← heq.1])
  | jnull => simp [dictGet] at heq
  | jbool b => simp [dictGet] at heq
  | jnum n => simp [dictGet] at heq
  | jstr t => simp [dictGet] at heq
  | jarr elems => simp [dictGet] at heq

/-- A successful run of the retry block on a frame whose event field is
not the string start leaves the stream identifier unchanged. -/
theorem retryBody_not_start (s : BridgeState) (data : JVal)
    (h : etIs (eventTypeOf data) "start" = false) (s2 : BridgeState) (logs : List Log)
    (heq : TwilioAudioInterface.retryBody s data = (Except.ok s2, logs)) :
    s2.stream_sid = s.stream_sid := by
  unfold TwilioAudioInterface.retryBody at heq
  cases data with
  | jobj fields =>
    rw [show eventTypeOf (JVal.jobj fields) = lookupKV fields "event" from rfl] at h
    simp only [dictGet, h] at heq
    repeat' split at heq
    all_goals
      first
      | (simp_all; done)
      | (simp_all
         rw [← heq.1])
  | jnull => simp [dictGet] at heq
  | jbool b => simp [dictGet] at heq
  | jnum n => simp [dictGet] at heq
  | jstr t => simp [dictGet] at heq
  | jarr elems => simp [dictGet] at heq

/-- C2 (amended): the stream identifier is set by every well-formed start
event, a later start event overwriting the earlier value, and no event
other than a start event ever changes it before teardown. -/
theorem C2_sid_updates :
    (∀ (s : BridgeState) (data : JVal), etIs (eventTypeOf data) "start" = false →
       (runHandle s data).stream_sid = s.stream_sid) ∧
    (∀ (s : BridgeState) (sid : String),
       (runHandle s (startEvt sid)).stream_sid = JVal.jstr sid) := by
  constructor
  · intro s data h
    unfold runHandle TwilioAudioInterface.handle_twilio_message
    rcases hb : TwilioAudioInterface.handleBody s data with ⟨res, logs⟩
    cases res with
    | ok s2 => exact handleBody_not_start s data h s2 logs hb
    | error e =>
      cases e
      case keyError k => rfl
      all_goals
        (rcases hr : TwilioAudioInterface.retryBody s data with ⟨res2, rlogs⟩
         cases res2 with
         | ok s2 => exact retryBody_not_start s data h s2 rlogs hr
         | error e2 => rfl)
  · intro s sid
    rfl

/-- C2 witness: a media event leaves the stream identifier unchanged. -/
theorem C2_sid_updates_witness :
    (runHandle initState (mediaEvt "QQ==")).stream_sid = initState.stream_sid :=
  C2_sid_updates.1 initState (mediaEvt "QQ==") rfl

/-- C9: the tool-dispatch endpoint returns the handler result whenever the
body parsed to a JSON object and the handler succeeded, and returns a
success-false error object whenever the body is malformed JSON, the
handler reports an error, or the handler raises; being a total function of
these outcomes, no such failure propagates out of the endpoint. -/
theorem C9_tool_endpoint (toolName : String) (body : RequestBody) (h : HandlerOutcome) :
    (∀ (j : JVal) (fields : List (String × JVal)) (r : JVal),
       body = RequestBody.valid j → j = JVal.jobj fields →
       h = HandlerOutcome.ok r → handle_tool_call toolName body h = r) ∧
    (∀ m : String, body = RequestBody.invalidJson m →
       handle_tool_call toolName body h =
         errorResponse ("Invalid JSON in request body: " ++ m)) ∧
    (∀ (j : JVal) (m : String), body = RequestBody.valid j → h = HandlerOutcome.err m →
       ∃ msg, handle_tool_call toolName body h = errorResponse msg) ∧
    (∀ (j : JVal) (e : PyErr), body = RequestBody.valid j → h = HandlerOutcome.raises e →
       ∃ msg, handle_tool_call toolName body h = errorResponse msg) := by
  refine ⟨?_, ?_, ?_, ?_⟩
  · rintro j fields r rfl rfl rfl
    rfl
  · rintro m rfl
    rfl
  · rintro j m rfl rfl
    cases j <;> exact ⟨_, rfl⟩
  · rintro j e rfl rfl
    cases j <;> exact ⟨_, rfl⟩

/-- C9 witness: a successful handler call on a JSON-object body returns the
handler result unchanged. -/
theorem C9_tool_endpoint_witness :
    handle_tool_call "get_weather"
      (RequestBody.valid (JVal.jobj [("city", JVal.jstr "Paris")]))
      (HandlerOutcome.ok (JVal.jstr "sunny")) = JVal.jstr "sunny" :=
  (C9_tool_endpoint "get_weather"
    (RequestBody.valid (JVal.jobj [("city", JVal.jstr "Paris")]))
    (HandlerOutcome.ok (JVal.jstr "sunny"))).1
    (JVal.jobj [("city", JVal.jstr "Paris")]) [("city", JVal.jstr "Paris")]
    (JVal.jstr "sunny") rfl rfl rfl

/-- C10: handle_twilio_message completes with an ok result on every input
value, so the orchestrator performs exactly one attempt per well-formed
frame and its outer retry path is never reached for such frames; in
particular a start event whose start object lacks the streamSid key takes
the KeyError path, leaving the whole bridge state unchanged. -/
theorem C10_handler_never_raises (s : BridgeState) (data : JVal) :
    (∃ r, TwilioAudioInterface.handle_twilio_message s data = Except.ok r) ∧
    (processFrame s (RawMsg.wellFormed data)).2.2 = 1 ∧
    (∀ fields : List (String × JVal),
       data = JVal.jobj [("event", JVal.jstr "start"), ("start", JVal.jobj fields)] →
       lookupKV fields "streamSid" = none →
       TwilioAudioInterface.handle_twilio_message s data =
         Except.ok (s, [Log.handlingEvent (some (JVal.jstr "start")),
                        Log.missingKey "streamSid",
                        Log.availableKeys (TwilioAudioInterface.keysOf data),
                        Log.fullMessageData data])) := by
  have hok : ∃ r, TwilioAudioInterface.handle_twilio_message s data = Except.ok r := by
    unfold TwilioAudioInterface.handle_twilio_message
    rcases hb : TwilioAudioInterface.handleBody s data with ⟨res, logs⟩
    cases res with
    | ok s2 => exact ⟨_, rfl⟩
    | error e =>
      cases e
      case keyError k => exact ⟨_, rfl⟩
      all_goals
        (rcases hr : TwilioAudioInterface.retryBody s data with ⟨res2, rlogs⟩
         cases res2 <;> exact ⟨_, rfl⟩)
  refine ⟨hok, ?_, ?_⟩
  · obtain ⟨r, hr⟩ := hok
    have ha : attemptFrame s (RawMsg.wellFormed data) =
        TwilioAudioInterface.handle_twilio_message s data := rfl
    unfold processFrame
    rw [ha, hr]
  · rintro fields rfl hnone
    have hb : TwilioAudioInterface.handleBody s
        (JVal.jobj [("event", JVal.jstr "start"), ("start", JVal.jobj fields)]) =
        (Except.error (PyErr.keyError "streamSid"),
         [Log.handlingEvent (some (JVal.jstr "start"))]) := by
      unfold TwilioAudioInterface.handleBody
      simp [dictGet, lookupKV, etIs, indexKey, hnone]
    unfold TwilioAudioInterface.handle_twilio_message
    rw [hb]
    rfl

/-- C10 witness: a start event with an empty start object is swallowed with
the state unchanged. -/
theorem C10_handler_never_raises_witness :
    TwilioAudioInterface.handle_twilio_message initState
        (JVal.jobj [("event", JVal.jstr "start"), ("start", JVal.jobj [])]) =
      Except.ok (initState, [Log.handlingEvent (some (JVal.jstr "start")),
        Log.missingKey "streamSid", Log.availableKeys ["event", "start"],
        Log.fullMessageData (JVal.jobj [("event", JVal.jstr "start"),
                                        ("start", JVal.jobj [])])]) :=
  (C10_handler_never_raises initState
    (JVal.jobj [("event", JVal.jstr "start"), ("start", JVal.jobj [])])).2.2 [] rfl rfl
